import Mathlib

/-!
Verification of the beehaiv-be transaction and auth core.

This file gives a shallow embedding of the transaction engine
(`src/app/transactions/views.py`, `services.py`), the token bearer
(`src/app/auth/dependencies.py`) and the redis-backed trust guard and
revocation registry (`src/db/redis.py`), and proves or refutes the
specification claims about them.

Money amounts are Python floats in the source; they are modelled as
exact rationals (`Rat`), which agrees with the float semantics at the
monetary scales used in the claims.
-/

/-- Role enum from `src/app/auth/models.py` (`UserRole`). -/
inductive UserRole
| admin
| user
| manager
deriving DecidableEq, Repr

/-- Transaction type enum from `src/app/transactions/models.py` (`TransactionType`). -/
inductive TransactionType
| deposit
| withdrawal
| transfer
deriving DecidableEq, Repr

/-- Transaction status enum from `src/app/transactions/models.py` (`TransactionStatus`). -/
inductive TransactionStatus
| pending
| completed
| failed
deriving DecidableEq, Repr

/-- The fields of the `User` model (`src/app/auth/models.py`) that the
transaction and trust-guard code reads: uid, domain, role, the stored
transfer-PIN hash, and the last-known IP (`ip_address`). -/
structure User where
  uid : Nat
  domain : String
  role : UserRole
  transfer_pin_hash : String
  ip_address : String
deriving DecidableEq, Repr

/-- The `TransactionHistory` model (`src/app/transactions/models.py`).
It has no foreign key to any bank account: only `user_id` links it to a user. -/
structure TransactionHistory where
  uid : Nat
  user_id : Nat
  domain : String
  amount : Rat
  transaction_type : TransactionType
  status : TransactionStatus
  created_at : Nat
  updated_at : Nat
deriving DecidableEq, Repr

/-- The fields of the `BankAccount` model that the transaction views read
and write: the unique account number and the balance. -/
structure BankAccount where
  account_number : String
  balance : Rat
deriving DecidableEq, Repr

/-- The typed failures raised by the embedded code (`src/errors.py`), plus
the two Python runtime errors that `src/db/redis.py` can raise
(`AttributeError` from `None.decode`, `TypeError` from an unexpected
keyword argument). -/
inductive AppError
| invalidTransactionPin
| bankAccountNotFound
| insufficientFunds
| transactionNotFound
| insufficientPermission
| invalidToken
| accessTokenRequired
| refreshTokenRequired
| attributeError
| typeError
deriving DecidableEq, Repr

/-- Model of the passlib bcrypt check `verify_password(password, hash)` from
`src/app/auth/utils.py`, modelled with the hash function abstracted to the
identity: verification succeeds exactly when the supplied secret matches
the stored one. The claims only depend on the boolean outcome. -/
def verify_password (password : String) (hash : String) : Bool :=
  password == hash

/-- The database state seen by the transaction views: the bank-account
table keyed by its unique `account_number`, and the `transactions` table. -/
structure DBState where
  accounts : String → Option BankAccount
  transactions : List TransactionHistory

/-- Model of `business_service.get_bank_by_account_number` — a `select ... where
account_number == x` returning the first row of the unique-keyed table. -/
def get_bank_by_account_number (st : DBState) (account_number : String) : Option BankAccount :=
  st.accounts account_number

/-- Write back a mutated bank-account row (`session.commit()` after
`bank_account.balance -= amount`). -/
def DBState.setBalance (st : DBState) (account_number : String) (b : Rat) : DBState :=
  { st with accounts := fun k =>
      if k = account_number then
        (st.accounts account_number).map (fun a => { a with balance := b })
      else st.accounts k }

/-- Model of `TransactionService.transfer_to_domestic_account`
(`src/app/transactions/services.py` lines 75-95): builds a new
`TransactionHistory` of type `TRANSFER` with status `COMPLETED` owned by
the calling user. `new_uid` and `now` stand for `uuid.uuid4()` and
`datetime.utcnow()`. -/
def transfer_to_domestic_account (user : User) (amount : Rat) (new_uid now : Nat) :
    TransactionHistory :=
  { uid := new_uid, user_id := user.uid, domain := user.domain, amount := amount,
    transaction_type := TransactionType.transfer, status := TransactionStatus.completed,
    created_at := now, updated_at := now }

/-- Model of `TransactionService.transfer_to_international_account`
(`src/app/transactions/services.py` lines 97-120): identical to the
domestic case except the status is `PENDING`. -/
def transfer_to_international_account (user : User) (amount : Rat) (new_uid now : Nat) :
    TransactionHistory :=
  { uid := new_uid, user_id := user.uid, domain := user.domain, amount := amount,
    transaction_type := TransactionType.transfer, status := TransactionStatus.pending,
    created_at := now, updated_at := now }

/-- Model of `TransactionService.withdraw_from_account`
(`src/app/transactions/services.py` lines 122-142): type `WITHDRAWAL`,
status `COMPLETED`. -/
def withdraw_from_account (user : User) (amount : Rat) (new_uid now : Nat) :
    TransactionHistory :=
  { uid := new_uid, user_id := user.uid, domain := user.domain, amount := amount,
    transaction_type := TransactionType.withdrawal, status := TransactionStatus.completed,
    created_at := now, updated_at := now }

/-- The `/domestic-transfer` view `make_domestic_transfers`
(`src/app/transactions/views.py` lines 85-142): PIN gate, account lookup,
funds check, create the completed transaction, then debit the balance and
commit. A raise in the source aborts before any write, so an `.error`
result leaves the database untouched. -/
def make_domestic_transfers (transfer_pin account_number : String) (amount : Rat)
    (new_uid now : Nat) (user : User) (st : DBState) :
    Except AppError (TransactionHistory × DBState) :=
  if ¬ verify_password transfer_pin user.transfer_pin_hash then
    Except.error AppError.invalidTransactionPin
  else
    match get_bank_by_account_number st account_number with
    | none => Except.error AppError.bankAccountNotFound
    | some bank_account =>
      if bank_account.balance < amount then
        Except.error AppError.insufficientFunds
      else
        let transaction := transfer_to_domestic_account user amount new_uid now
        let st1 : DBState := { st with transactions := st.transactions ++ [transaction] }
        Except.ok (transaction, st1.setBalance account_number (bank_account.balance - amount))

/-- The `/international-transfer` view `make_international_transfers`
(`src/app/transactions/views.py` lines 150-206): same control flow as the
domestic view; the created transaction has status `PENDING`, yet the view
still executes `bank_account.balance -= transaction_data.amount` because
the returned transaction is not `None`. -/
def make_international_transfers (transfer_pin account_number : String) (amount : Rat)
    (new_uid now : Nat) (user : User) (st : DBState) :
    Except AppError (TransactionHistory × DBState) :=
  if ¬ verify_password transfer_pin user.transfer_pin_hash then
    Except.error AppError.invalidTransactionPin
  else
    match get_bank_by_account_number st account_number with
    | none => Except.error AppError.bankAccountNotFound
    | some bank_account =>
      if bank_account.balance < amount then
        Except.error AppError.insufficientFunds
      else
        let transaction := transfer_to_international_account user amount new_uid now
        let st1 : DBState := { st with transactions := st.transactions ++ [transaction] }
        Except.ok (transaction, st1.setBalance account_number (bank_account.balance - amount))

/-- The `/withdraw` view `withdraw_from_balance`
(`src/app/transactions/views.py` lines 212-266): PIN gate, account lookup,
funds check, create the completed withdrawal, debit the balance. -/
def withdraw_from_balance (transfer_pin account_number : String) (amount : Rat)
    (new_uid now : Nat) (user : User) (st : DBState) :
    Except AppError (TransactionHistory × DBState) :=
  if ¬ verify_password transfer_pin user.transfer_pin_hash then
    Except.error AppError.invalidTransactionPin
  else
    match get_bank_by_account_number st account_number with
    | none => Except.error AppError.bankAccountNotFound
    | some bank_account =>
      if bank_account.balance < amount then
        Except.error AppError.insufficientFunds
      else
        let transaction := withdraw_from_account user amount new_uid now
        let st1 : DBState := { st with transactions := st.transactions ++ [transaction] }
        Except.ok (transaction, st1.setBalance account_number (bank_account.balance - amount))

/-- The balance at a given account number after a successful view call;
`none` when the call failed or the account is absent. -/
def balanceAfter (r : Except AppError (TransactionHistory × DBState))
    (account_number : String) : Option Rat :=
  match r with
  | Except.ok (_, st) => (st.accounts account_number).map (fun a => a.balance)
  | Except.error _ => none

/-- Model of `TransactionService.get_all_transactions`
(`src/app/transactions/services.py` lines 27-38): a `MANAGER` gets the
rows of their domain; every other role — `ADMIN` and plain `USER` alike —
gets the unfiltered `select(TransactionHistory)`. -/
def get_all_transactions (user : User) (transactions : List TransactionHistory) :
    List TransactionHistory :=
  if user.role = UserRole.manager then
    transactions.filter (fun t => t.domain == user.domain)
  else
    transactions

/-- Model of `TransactionService.get_transaction_by_uid`
(`src/app/transactions/services.py` lines 40-55): non-manager/admin
callers get the row only when it is their own (`user_id == user.uid`);
managers and admins look it up by uid alone. -/
def get_transaction_by_uid (user : User) (uid : Nat)
    (transactions : List TransactionHistory) : Option TransactionHistory :=
  if user.role ≠ UserRole.manager ∧ user.role ≠ UserRole.admin then
    transactions.find? (fun t => t.user_id == user.uid && t.uid == uid)
  else
    transactions.find? (fun t => t.uid == uid)

/-- Model of `TransactionService.update_transaction`
(`src/app/transactions/services.py` lines 144-169): role gate, fetch by
uid, then `setattr` every key of the payload. The `TransactionUpdate`
schema has the single field `status`, so exactly the status is written. -/
def TransactionService.update_transaction (user : User) (uid : Nat)
    (new_status : TransactionStatus) (transactions : List TransactionHistory) :
    Except AppError (TransactionHistory × List TransactionHistory) :=
  if user.role ≠ UserRole.manager ∧ user.role ≠ UserRole.admin then
    Except.error AppError.insufficientPermission
  else
    match get_transaction_by_uid user uid transactions with
    | none => Except.error AppError.transactionNotFound
    | some transaction =>
      let transaction1 := { transaction with status := new_status }
      Except.ok (transaction1,
        transactions.map (fun t => if t.uid = uid then transaction1 else t))

/-- The `PATCH /{uid}` view `update_transaction`
(`src/app/transactions/views.py` lines 272-325): looks up the bank
account by the caller-supplied `account_number`, updates the transaction
via the service, then — based on the NEW status of the transaction — debits the
account by `amount` (new status `COMPLETED`, type `TRANSFER`) or credits
it (new status `FAILED`, type `TRANSFER`). The account debited is keyed
only by the `account_number` argument; the transaction row holds no
account reference. -/
def update_transaction (account_number : String) (uid : Nat)
    (new_status : TransactionStatus) (user : User) (st : DBState) :
    Except AppError (TransactionHistory × DBState) :=
  match get_bank_by_account_number st account_number with
  | none => Except.error AppError.bankAccountNotFound
  | some bank_account =>
    match TransactionService.update_transaction user uid new_status st.transactions with
    | Except.error e => Except.error e
    | Except.ok (transaction, transactions1) =>
      let st1 : DBState := { st with transactions := transactions1 }
      if transaction.status = TransactionStatus.completed ∧
          transaction.transaction_type = TransactionType.transfer then
        Except.ok (transaction,
          st1.setBalance account_number (bank_account.balance - transaction.amount))
      else if transaction.status = TransactionStatus.failed ∧
          transaction.transaction_type = TransactionType.transfer then
        Except.ok (transaction,
          st1.setBalance account_number (bank_account.balance + transaction.amount))
      else
        Except.ok (transaction, st1.setBalance account_number bank_account.balance)

/-- The decoded JWT claims the bearer classes read
(`src/app/auth/utils.py` `decode_token`): the jti, the `refresh` flag and
the expiry timestamp. -/
structure TokenData where
  jti : String
  refresh : Bool
  exp : Nat
deriving DecidableEq, Repr

/-- Which bearer class is guarding the endpoint: `AccessTokenBearer` or
`RefreshTokenBearer` (`src/app/auth/dependencies.py`). -/
inductive TokenKind
| access
| refresh
deriving DecidableEq, Repr

/-- Model of `TokenBearer.__call__` (`src/app/auth/dependencies.py` lines 26-65)
composed with the subclass `verify_token_data` overrides. `decoded` is
the result of `decode_token` (`none` on bad signature / malformed /
expired). Order as in the source: invalid decode → `InvalidToken`; jti in
the blocklist → `InvalidToken`; then the kind check: an access endpoint
rejects `refresh = true` with `AccessTokenRequired`, a refresh endpoint
rejects `refresh = false` with `RefreshTokenRequired`. -/
def token_bearer_call (kind : TokenKind) (decoded : Option TokenData)
    (blocklisted_jtis : List String) : Except AppError TokenData :=
  match decoded with
  | none => Except.error AppError.invalidToken
  | some token_data =>
    if blocklisted_jtis.contains token_data.jti then
      Except.error AppError.invalidToken
    else
      match kind with
      | TokenKind.access =>
        if token_data.refresh then Except.error AppError.accessTokenRequired
        else Except.ok token_data
      | TokenKind.refresh =>
        if ¬ token_data.refresh then Except.error AppError.refreshTokenRequired
        else Except.ok token_data

/-- Constant `JTI_EXPIRY` from `src/db/redis.py`: the fixed blocklist TTL, 3600 s. -/
def JTI_EXPIRY : Nat := 3600

/-- Constant `ACCESS_TOKEN_EXPIRY` from `src/app/auth/utils.py`: 3600 s. -/
def ACCESS_TOKEN_EXPIRY : Nat := 3600

/-- The refresh-token validity used at login (`src/app/auth/views.py`
line 73: `REFRESH_TOKEN_EXPIRY = 2` days), in seconds. -/
def REFRESH_TOKEN_EXPIRY_SECONDS : Nat := 2 * 86400

/-- The revocation registry: each revoked jti with the absolute time its
redis key expires. A key set with `ex=ttl` at time `t` exists at the
times strictly before `t + ttl`. -/
def Blocklist := List (String × Nat)

/-- Model of `add_jti_to_blocklist` (`src/db/redis.py` lines 92-95):
`redis_client.set(jti, "", ex=JTI_EXPIRY)` — the TTL is the fixed
`JTI_EXPIRY`, independent of the validity of the revoked token. -/
def add_jti_to_blocklist (jti : String) (now : Nat) (bl : Blocklist) : Blocklist :=
  (jti, now + JTI_EXPIRY) :: bl

/-- Model of `token_in_blocklist` (`src/db/redis.py` lines 98-102):
`redis_client.exists(jti)` at time `now` — true when some unexpired entry
for this jti is present. -/
def token_in_blocklist (jti : String) (now : Nat) (bl : Blocklist) : Bool :=
  bl.any (fun e => e.1 == jti && decide (now < e.2))

/-- The per-(user, IP) attempt counters kept under `new_ip:{uid}:{ip}`
keys in redis, as a finite map from the (user uid, IP) pair to the stored
count. `none` models an absent key (`redis_client.get` returns `None`). -/
def IpCounters := Nat × String → Option Nat

/-- Model of `block_ip_attempts` (`src/db/redis.py` lines 30-52),
faithfully including its Python runtime failures:
- same IP as `user.ip_address`: return `False`, no state change;
- different IP and no stored counter: `attempts` is `None`, so
  `attempts.decode("utf-8")` raises `AttributeError`;
- different IP, stored counter with `count + 1 < 4`: `store_new_ip` calls
  `redis_client.set(..., exp=SECURITY_EXPIRY)`; `set` accepts no `exp`
  keyword, so this raises `TypeError` before any write happens;
- different IP, stored counter with `count + 1 >= 4`: return `True`
  (block). -/
def block_ip_attempts (user : User) (new_ip : String) (counters : IpCounters) :
    Except AppError (Bool × IpCounters) :=
  if user.ip_address ≠ new_ip then
    match counters (user.uid, new_ip) with
    | none => Except.error AppError.attributeError
    | some attempts =>
      let calc_attempts := attempts + 1
      if calc_attempts < 4 then
        Except.error AppError.typeError
      else
        Except.ok (true, counters)
  else
    Except.ok (false, counters)

/-- Phase of one in-flight withdrawal/transfer request against a shared
account, following the `async` structure of `withdraw_from_balance`: the
funds check (`bank_account.balance < amount`) and the commit of the debit
(`bank_account.balance -= amount; await session.commit()`) are separated
by `await` suspension points, so other requests can interleave between
them. -/
inductive ThreadPhase
| start
| checked
| succeeded
| failedInsufficientFunds
deriving DecidableEq, Repr

/-- Shared state of two concurrent requests against one account. -/
structure ConcTwoState where
  balance : Rat
  phase0 : ThreadPhase
  phase1 : ThreadPhase
deriving DecidableEq, Repr

/-- One atomic step of a request with the given amount: from `start` it
performs the funds check against the CURRENT balance; from `checked` it
commits the debit. Terminal phases do not step. -/
def stepThread (amount balance : Rat) : ThreadPhase → ThreadPhase × Rat
  | ThreadPhase.start =>
    if balance < amount then (ThreadPhase.failedInsufficientFunds, balance)
    else (ThreadPhase.checked, balance)
  | ThreadPhase.checked => (ThreadPhase.succeeded, balance - amount)
  | ph => (ph, balance)

/-- Schedule one step of the chosen request (`false` = request 0,
`true` = request 1) with amounts `a0`, `a1`. -/
def stepSchedule (a0 a1 : Rat) (s : ConcTwoState) : Bool → ConcTwoState
  | false =>
    let r := stepThread a0 s.balance s.phase0
    { s with phase0 := r.1, balance := r.2 }
  | true =>
    let r := stepThread a1 s.balance s.phase1
    { s with phase1 := r.1, balance := r.2 }

/-- Run a whole interleaving of the two requests. -/
def runSchedule (a0 a1 : Rat) (sched : List Bool) (s : ConcTwoState) : ConcTwoState :=
  sched.foldl (stepSchedule a0 a1) s

/-- The status of the created or updated transaction, when the view succeeded. -/
def statusAfter (r : Except AppError (TransactionHistory × DBState)) :
    Option TransactionStatus :=
  match r with
  | Except.ok (t, _) => some t.status
  | Except.error _ => none

/-- The database state after a successful view call. -/
def stateAfter (r : Except AppError (TransactionHistory × DBState)) : Option DBState :=
  match r with
  | Except.ok (_, st) => some st
  | Except.error _ => none

/-- A plain-role user whose transfer PIN is "1234" and last-known IP is
1.1.1.1, used as a concrete fixture. -/
def plainUser : User :=
  { uid := 1, domain := "d", role := UserRole.user, transfer_pin_hash := "1234",
    ip_address := "1.1.1.1" }

/-- A manager fixture. -/
def managerUser : User :=
  { uid := 2, domain := "d", role := UserRole.manager, transfer_pin_hash := "9999",
    ip_address := "1.1.1.1" }

/-- A bank-account table holding the single account ACC1 with balance 100. -/
def acct100 : String → Option BankAccount := fun k =>
  if k = "ACC1" then some { account_number := "ACC1", balance := 100 } else none

/-- Database fixture: account ACC1 at balance 100, no transactions. -/
def st100 : DBState := { accounts := acct100, transactions := [] }

/-- A transfer transaction of amount 50 that is already `completed`. -/
def completedTransfer50 : TransactionHistory :=
  { uid := 7, user_id := 1, domain := "d", amount := 50,
    transaction_type := TransactionType.transfer,
    status := TransactionStatus.completed, created_at := 0, updated_at := 0 }

/-- Database fixture: account ACC1 at balance 100 and the completed
transfer of 50 on file. -/
def st100WithCompleted : DBState :=
  { accounts := acct100, transactions := [completedTransfer50] }

/-- A transaction owned by a different user (uid 42, other domain). -/
def otherUsersTransaction : TransactionHistory :=
  { uid := 9, user_id := 42, domain := "other", amount := 5,
    transaction_type := TransactionType.transfer,
    status := TransactionStatus.completed, created_at := 0, updated_at := 0 }

/-- The empty trust-guard counter store: no `new_ip:{uid}:{ip}` key. -/
def emptyCounters : IpCounters := fun _ => none

/-- A counter store holding `count` for `plainUser` and IP 2.2.2.2. -/
def countersAt (count : Nat) : IpCounters := fun p =>
  if p = (plainUser.uid, "2.2.2.2") then some count else none

/-- The transaction value returned by the concrete C10 run: the stored
completed transfer of 50 with its status field (re)written. -/
def updatedTransfer50 : TransactionHistory :=
  { completedTransfer50 with status := TransactionStatus.completed }

/-- The database state produced by the concrete C10 run. -/
def stAfterUpdate : DBState :=
  DBState.setBalance
    { accounts := acct100,
      transactions :=
        List.map (fun t => if t.uid = 7 then updatedTransfer50 else t) [completedTransfer50] }
    "ACC1" ((100 : Rat) - 50)

/-- Lemma: `DBState.setBalance` changes no key other than the one written. -/
theorem setBalance_other_key (st : DBState) (no k : String) (b : Rat) (hk : k ≠ no) :
    (st.setBalance no b).accounts k = st.accounts k := by
  simp [DBState.setBalance, hk]

/-- C1: the claim says an international transfer with a correct PIN, an
existing account and sufficient balance is created `pending` with the
balance unchanged at creation, the debit happening exactly once when the
transaction later becomes `completed`. The code
(`make_international_transfers`, views.py lines 201-204) debits the
balance already at creation, and `update_transaction` (views.py lines
312-316) debits again on the transition to `completed`: with balance 100
and amount 50 the balance is 50 right after creation (claim: 100) and 0
after the manager completes it (claim: 50, a single debit). -/
theorem intl_transfer_double_debit :
    statusAfter (make_international_transfers "1234" "ACC1" 50 7 0 plainUser st100)
      = some TransactionStatus.pending ∧
    balanceAfter (make_international_transfers "1234" "ACC1" 50 7 0 plainUser st100) "ACC1"
      = some 50 ∧
    (stateAfter (make_international_transfers "1234" "ACC1" 50 7 0 plainUser st100)).map
      (fun st1 => balanceAfter
        (update_transaction "ACC1" 7 TransactionStatus.completed managerUser st1) "ACC1")
      = some (some 0) := by
  norm_num [statusAfter, stateAfter, balanceAfter, make_international_transfers,
    transfer_to_international_account, get_bank_by_account_number, DBState.setBalance,
    verify_password, plainUser, managerUser, st100, acct100, update_transaction,
    TransactionService.update_transaction, get_transaction_by_uid]

/-- C2: the claim says applying the same status transition twice leaves
the balance unchanged the second time (the balance effect happens at most
once). The code applies the balance effect on EVERY `update_transaction`
call whose (new) status is `completed`/`failed` and type is `transfer`,
with no record of whether it was applied before: updating the
already-completed transfer of 50 to `completed` debits account ACC1 from
100 to 50, and doing the identical update once more debits again, to 0. -/
theorem update_transaction_reapplies_balance_effect :
    balanceAfter
      (update_transaction "ACC1" 7 TransactionStatus.completed managerUser st100WithCompleted)
      "ACC1" = some 50 ∧
    (stateAfter
      (update_transaction "ACC1" 7 TransactionStatus.completed managerUser st100WithCompleted)).map
      (fun st1 => balanceAfter
        (update_transaction "ACC1" 7 TransactionStatus.completed managerUser st1) "ACC1")
      = some (some 0) := by
  norm_num [statusAfter, stateAfter, balanceAfter, get_bank_by_account_number,
    DBState.setBalance, managerUser, st100WithCompleted, acct100, completedTransfer50,
    update_transaction, TransactionService.update_transaction, get_transaction_by_uid]

/-- C3: a withdrawal with a correct PIN against an existing account fails
with `InsufficientFunds` when `balance < amount` (the raise happens before
any write, so the stored balance is untouched), and otherwise succeeds
with a `completed` withdrawal transaction and the new account balance
equal to the old balance minus the amount. -/
theorem withdraw_funds_check_correct (transfer_pin account_number : String)
    (amount : Rat) (new_uid now : Nat) (user : User) (st : DBState) (acct : BankAccount)
    (hpin : verify_password transfer_pin user.transfer_pin_hash = true)
    (hacct : st.accounts account_number = some acct) :
    (acct.balance < amount →
      withdraw_from_balance transfer_pin account_number amount new_uid now user st
        = Except.error AppError.insufficientFunds) ∧
    (amount ≤ acct.balance →
      ∃ txn st1,
        withdraw_from_balance transfer_pin account_number amount new_uid now user st
          = Except.ok (txn, st1) ∧
        txn.status = TransactionStatus.completed ∧
        txn.transaction_type = TransactionType.withdrawal ∧
        txn.amount = amount ∧
        (st1.accounts account_number).map (fun a => a.balance)
          = some (acct.balance - amount)) := by
  constructor
  · intro hlt
    simp [withdraw_from_balance, hpin, get_bank_by_account_number, hacct, hlt]
  · intro hle
    refine ⟨withdraw_from_account user amount new_uid now,
      DBState.setBalance
        { st with transactions := st.transactions ++ [withdraw_from_account user amount new_uid now] }
        account_number (acct.balance - amount), ?_, rfl, rfl, rfl, ?_⟩
    · simp [withdraw_from_balance, hpin, get_bank_by_account_number, hacct,
        not_lt.mpr hle]
    · simp [DBState.setBalance, hacct]

/-- Witness for C3 at the scenario from the spec: balance 100, withdraw 60 with
the correct PIN succeeds leaving 40; withdrawing 60 from the resulting
40 fails with `InsufficientFunds`. -/
theorem withdraw_funds_check_correct_witness :
    ((100 : Rat) < 60 →
      withdraw_from_balance "1234" "ACC1" 60 3 0 plainUser st100
        = Except.error AppError.insufficientFunds) ∧
    ((60 : Rat) ≤ 100 →
      ∃ txn st1,
        withdraw_from_balance "1234" "ACC1" 60 3 0 plainUser st100
          = Except.ok (txn, st1) ∧
        txn.status = TransactionStatus.completed ∧
        txn.transaction_type = TransactionType.withdrawal ∧
        txn.amount = 60 ∧
        (st1.accounts "ACC1").map (fun a => a.balance) = some ((100 : Rat) - 60)) :=
  withdraw_funds_check_correct "1234" "ACC1" 60 3 0 plainUser st100
    { account_number := "ACC1", balance := 100 } (by norm_num [verify_password, plainUser])
    (by norm_num [st100, acct100])

/-- C4: on every transfer or withdrawal view the PIN gate precedes the
account lookup and the funds check, so with a wrong PIN — even when the
account also has insufficient funds — the reported failure is
`InvalidTransactionPin`, and the error aborts the handler before any
balance read or write. -/
theorem pin_gate_precedes_funds_check (transfer_pin account_number : String)
    (amount : Rat) (new_uid now : Nat) (user : User) (st : DBState) (acct : BankAccount)
    (hpin : verify_password transfer_pin user.transfer_pin_hash = false)
    (hacct : st.accounts account_number = some acct)
    (hfunds : acct.balance < amount) :
    make_domestic_transfers transfer_pin account_number amount new_uid now user st
      = Except.error AppError.invalidTransactionPin ∧
    make_international_transfers transfer_pin account_number amount new_uid now user st
      = Except.error AppError.invalidTransactionPin ∧
    withdraw_from_balance transfer_pin account_number amount new_uid now user st
      = Except.error AppError.invalidTransactionPin := by
  refine ⟨?_, ?_, ?_⟩ <;>
    simp [make_domestic_transfers, make_international_transfers, withdraw_from_balance, hpin]

/-- Witness for C4: PIN "0000" against stored secret "1234" and an account
at balance 100 with requested amount 200 (insufficient) fails with
`InvalidTransactionPin` on all three views. -/
theorem pin_gate_precedes_funds_check_witness :
    make_domestic_transfers "0000" "ACC1" 200 3 0 plainUser st100
      = Except.error AppError.invalidTransactionPin ∧
    make_international_transfers "0000" "ACC1" 200 3 0 plainUser st100
      = Except.error AppError.invalidTransactionPin ∧
    withdraw_from_balance "0000" "ACC1" 200 3 0 plainUser st100
      = Except.error AppError.invalidTransactionPin :=
  pin_gate_precedes_funds_check "0000" "ACC1" 200 3 0 plainUser st100
    { account_number := "ACC1", balance := 100 } (by decide)
    (by norm_num [st100, acct100]) (by norm_num)

/-- C5: the claim says a caller with role `user` obtains only their own
transactions from the list-all operation. In
`TransactionService.get_all_transactions` only the `MANAGER` branch
filters (and by domain, not by user); every other role — `ADMIN` and plain
`USER` alike — receives the unfiltered `select(TransactionHistory)`: the
plain user with uid 1 receives the transaction owned by user 42. -/
theorem plain_user_lists_other_users_transactions :
    get_all_transactions plainUser [otherUsersTransaction] = [otherUsersTransaction] ∧
    otherUsersTransaction.user_id ≠ plainUser.uid :=
  ⟨rfl, by decide⟩

/-- C6: for a token that decodes successfully (valid signature, not
expired): presented at an access endpoint with `refresh = true` it fails
with `AccessTokenRequired`; presented at a refresh endpoint with
`refresh = false` it fails with `RefreshTokenRequired`; and whenever its
jti is in the revocation blocklist it is rejected (with `InvalidToken`)
at both endpoint kinds, the blocklist check running before the kind
check. -/
theorem token_kind_and_revocation_enforced (td : TokenData) (bl : List String)
    (hnotrev : ¬ td.jti ∈ bl) :
    (td.refresh = true →
      token_bearer_call TokenKind.access (some td) bl
        = Except.error AppError.accessTokenRequired) ∧
    (td.refresh = false →
      token_bearer_call TokenKind.refresh (some td) bl
        = Except.error AppError.refreshTokenRequired) ∧
    (∀ kind : TokenKind, ∀ bl2 : List String, td.jti ∈ bl2 →
      token_bearer_call kind (some td) bl2 = Except.error AppError.invalidToken) := by
  refine ⟨?_, ?_, ?_⟩
  · intro hr
    simp [token_bearer_call, hnotrev, hr]
  · intro hr
    simp [token_bearer_call, hnotrev, hr]
  · intro kind bl2 hrev
    cases kind <;> simp [token_bearer_call, hrev]

/-- Witness for C6: the refresh token with jti "j1" (not revoked) is
rejected at an access endpoint with `AccessTokenRequired`, would be
rejected at a refresh endpoint with `RefreshTokenRequired` were its flag
false, and is rejected as invalid at any endpoint once "j1" is revoked. -/
theorem token_kind_and_revocation_enforced_witness :
    (({ jti := "j1", refresh := true, exp := 9999 } : TokenData).refresh = true →
      token_bearer_call TokenKind.access
        (some { jti := "j1", refresh := true, exp := 9999 }) ["j2"]
        = Except.error AppError.accessTokenRequired) ∧
    (({ jti := "j1", refresh := true, exp := 9999 } : TokenData).refresh = false →
      token_bearer_call TokenKind.refresh
        (some { jti := "j1", refresh := true, exp := 9999 }) ["j2"]
        = Except.error AppError.refreshTokenRequired) ∧
    (∀ kind : TokenKind, ∀ bl2 : List String,
      ({ jti := "j1", refresh := true, exp := 9999 } : TokenData).jti ∈ bl2 →
      token_bearer_call kind (some { jti := "j1", refresh := true, exp := 9999 }) bl2
        = Except.error AppError.invalidToken) :=
  token_kind_and_revocation_enforced { jti := "j1", refresh := true, exp := 9999 } ["j2"]
    (by decide)

/-- C7: the claim says the trust guard increments the per-(user, IP)
counter, allows and persists while the incremented count is below 4, and
blocks at 4 or more. In the code (`block_ip_attempts`, redis.py lines
30-52) the allow-and-persist path can never complete: when no counter is
stored yet, `attempts` is `None` and `attempts.decode("utf-8")` raises
`AttributeError`; when a counter is stored and the incremented count is
below 4, `store_new_ip` passes the invalid keyword `exp=` to
`redis_client.set`, raising `TypeError`. Only the block branch (count
reaching 4) and the same-IP no-op behave as claimed. -/
theorem trust_guard_crashes_instead_of_counting :
    block_ip_attempts plainUser "2.2.2.2" emptyCounters
      = Except.error AppError.attributeError ∧
    block_ip_attempts plainUser "2.2.2.2" (countersAt 1)
      = Except.error AppError.typeError ∧
    block_ip_attempts plainUser "2.2.2.2" (countersAt 3)
      = Except.ok (true, countersAt 3) ∧
    block_ip_attempts plainUser "1.1.1.1" emptyCounters
      = Except.ok (false, emptyCounters) := by
  refine ⟨?_, ?_, ?_, ?_⟩ <;>
    simp [block_ip_attempts, plainUser, emptyCounters, countersAt]

/-- C8 counterexample: the claim says a revoked jti keeps being reported
revoked for the whole original validity window of the token. The refresh token
issued at login is valid for `REFRESH_TOKEN_EXPIRY = 2` days, but
`add_jti_to_blocklist` always uses the fixed `JTI_EXPIRY = 3600` s TTL:
a refresh-token jti revoked at time 0 is no longer reported revoked at
time 7200 s, well inside its 2-day validity. -/
theorem revoked_refresh_token_reported_unrevoked_early :
    token_in_blocklist "jtiR" 7200 (add_jti_to_blocklist "jtiR" 0 []) = false ∧
    7200 < REFRESH_TOKEN_EXPIRY_SECONDS := by
  decide

/-- C8 amended: `add_jti_to_blocklist` stores every jti with the fixed
TTL `JTI_EXPIRY = 3600` s — which equals `ACCESS_TOKEN_EXPIRY` but not the
refresh-token validity — so a jti revoked at `now` is reported revoked at
exactly the times `t < now + 3600`, regardless of the revoked token and its
validity window. -/
theorem revocation_ttl_is_fixed_jti_expiry (jti : String) (now t : Nat) :
    token_in_blocklist jti t (add_jti_to_blocklist jti now [])
      = decide (t < now + JTI_EXPIRY) ∧
    JTI_EXPIRY = ACCESS_TOKEN_EXPIRY := by
  constructor
  · simp [token_in_blocklist, add_jti_to_blocklist]
  · rfl

/-- C9 counterexample: the claim says that for every concurrent pair of
withdrawals whose combined amount exceeds the balance exactly one
succeeds. The funds check and the debit are separate steps with `await`
points between them, so the interleaving check0, check1, debit0, debit1
lets both requests pass the funds check against the stale balance 100 and
both succeed, leaving balance −20 — a double spend. -/
theorem concurrent_withdrawals_can_double_spend :
    runSchedule 60 60 [false, true, false, true]
      { balance := 100, phase0 := ThreadPhase.start, phase1 := ThreadPhase.start }
      = { balance := -20, phase0 := ThreadPhase.succeeded,
          phase1 := ThreadPhase.succeeded } := by
  norm_num [runSchedule, stepSchedule, stepThread, List.foldl]

/-- C9 amended: the exactly-one-succeeds property holds only when the two
requests do not interleave: run serially (request 0 entirely before
request 1), with `a0` covered by the balance and the combined amount
exceeding it, request 0 succeeds, request 1 fails with
`InsufficientFunds`, and the final balance is the initial balance minus
the amount of the one that succeeded. Under the non-atomic
check-then-write, interleavings exist where both succeed. -/
theorem serialized_withdrawals_exactly_one_succeeds (bal a0 a1 : Rat)
    (h0 : a0 ≤ bal) (h1 : bal < a0 + a1) :
    runSchedule a0 a1 [false, false, true, true]
      { balance := bal, phase0 := ThreadPhase.start, phase1 := ThreadPhase.start }
      = { balance := bal - a0, phase0 := ThreadPhase.succeeded,
          phase1 := ThreadPhase.failedInsufficientFunds } := by
  have h0' : ¬ bal < a0 := not_lt.mpr h0
  have h1' : bal - a0 < a1 := by linarith
  simp [runSchedule, List.foldl, stepSchedule, stepThread, h0', h1']

/-- Witness for C9 (amended): balance 100 with serial withdrawals of 60
and 60: the first succeeds, the second fails, final balance 40. -/
theorem serialized_withdrawals_exactly_one_succeeds_witness :
    runSchedule 60 60 [false, false, true, true]
      { balance := 100, phase0 := ThreadPhase.start, phase1 := ThreadPhase.start }
      = { balance := (100 : Rat) - 60, phase0 := ThreadPhase.succeeded,
          phase1 := ThreadPhase.failedInsufficientFunds } :=
  serialized_withdrawals_exactly_one_succeeds 100 60 60 (by norm_num) (by norm_num)

/-- C10: a successful `update_transaction` call touches exactly the bank
account named by the caller-supplied `account_number` argument — chosen
independently of the transaction, which stores no account reference — and
the returned transaction is the stored one with exactly the update
single payload field `status` replaced; the transactions table changes
only at that row, and every other account key is untouched. -/
theorem update_transaction_frame (account_number : String) (uid : Nat)
    (new_status : TransactionStatus) (user : User) (st : DBState)
    (txn : TransactionHistory) (st1 : DBState)
    (h : update_transaction account_number uid new_status user st
      = Except.ok (txn, st1)) :
    (∀ k, k ≠ account_number → st1.accounts k = st.accounts k) ∧
    (∃ t0, get_transaction_by_uid user uid st.transactions = some t0 ∧
      txn = { t0 with status := new_status }) ∧
    st1.transactions = st.transactions.map (fun t => if t.uid = uid then txn else t) ∧
    (∃ ba, st.accounts account_number = some ba ∧
      (st1.accounts account_number).map (fun a => a.balance) = some
        (if txn.status = TransactionStatus.completed ∧
            txn.transaction_type = TransactionType.transfer then
          ba.balance - txn.amount
        else if txn.status = TransactionStatus.failed ∧
            txn.transaction_type = TransactionType.transfer then
          ba.balance + txn.amount
        else ba.balance)) := by
  unfold update_transaction at h
  rcases hacct : get_bank_by_account_number st account_number with _ | ba
  · rw [hacct] at h
    exact absurd h (by simp)
  · rw [hacct] at h
    unfold TransactionService.update_transaction at h
    by_cases hrole : user.role ≠ UserRole.manager ∧ user.role ≠ UserRole.admin
    · rw [if_pos hrole] at h
      exact absurd h (by simp)
    · rw [if_neg hrole] at h
      rcases htx : get_transaction_by_uid user uid st.transactions with _ | t0
      · rw [htx] at h
        exact absurd h (by simp)
      · rw [htx] at h
        simp only [] at h
        have hacct2 : st.accounts account_number = some ba := hacct
        split_ifs at h with hc hf
        · rcases h with ⟨rfl, rfl⟩
          refine ⟨fun k hk => setBalance_other_key _ _ _ _ hk, ⟨t0, rfl, rfl⟩, rfl,
            ⟨ba, hacct2, ?_⟩⟩
          simp [DBState.setBalance, hacct2, hc]
        · rcases h with ⟨rfl, rfl⟩
          refine ⟨fun k hk => setBalance_other_key _ _ _ _ hk, ⟨t0, rfl, rfl⟩, rfl,
            ⟨ba, hacct2, ?_⟩⟩
          simp [DBState.setBalance, hacct2, hc, hf]
        · rcases h with ⟨rfl, rfl⟩
          refine ⟨fun k hk => setBalance_other_key _ _ _ _ hk, ⟨t0, rfl, rfl⟩, rfl,
            ⟨ba, hacct2, ?_⟩⟩
          rw [if_neg hc, if_neg hf]
          simp [DBState.setBalance, hacct2]

/-- Witness for C10: the manager updates transaction 7 to `completed`
against account ACC1; the conclusion holds at this concrete run. -/
theorem update_transaction_frame_witness :
    (∀ k, k ≠ "ACC1" → stAfterUpdate.accounts k = st100WithCompleted.accounts k) ∧
    (∃ t0, get_transaction_by_uid managerUser 7 st100WithCompleted.transactions = some t0 ∧
      updatedTransfer50 = { t0 with status := TransactionStatus.completed }) ∧
    stAfterUpdate.transactions
      = st100WithCompleted.transactions.map
          (fun t => if t.uid = 7 then updatedTransfer50 else t) ∧
    (∃ ba, st100WithCompleted.accounts "ACC1" = some ba ∧
      (stAfterUpdate.accounts "ACC1").map (fun a => a.balance)
        = some (if updatedTransfer50.status = TransactionStatus.completed ∧
              updatedTransfer50.transaction_type = TransactionType.transfer then
            ba.balance - updatedTransfer50.amount
          else if updatedTransfer50.status = TransactionStatus.failed ∧
              updatedTransfer50.transaction_type = TransactionType.transfer then
            ba.balance + updatedTransfer50.amount
          else ba.balance)) :=
  update_transaction_frame "ACC1" 7 TransactionStatus.completed managerUser
    st100WithCompleted updatedTransfer50 stAfterUpdate rfl
